import Mathlib

/-!
Shallow embedding of `elgato-keylight-rs` (`src/keylight.rs`).

Modelling conventions:
* Rust machine integers (`u8`, `u16`, `u32`, `i64`) are `Nat`/`Int`; where the
  source clamps or casts, the clamp/cast is made explicit.
* Rust `f32`/`f64` arithmetic is modelled as exact rational (`ℚ`) arithmetic.
  Every concrete instance evaluated below uses dyadic inputs on which the
  floating-point operations of the source are exact, and the numeric
  boundaries involved (`.5` ties, the 143/344 endpoints) were checked to be
  unaffected by the float rounding of the source expressions.
* Network effects (`reqwest`): each setter performs exactly one `PUT`
  (`send`) and each fetch one `GET` followed by a JSON decode, so a call's
  interaction with the device is a single `SendResult` value supplied as an
  argument.  Per the semantics of the HTTP client used by the source,
  `send()` fails only on transport failure; an HTTP response with a
  non-success status is returned as an ordinary response value, and decoding
  the body (`json()`) fails exactly when the body does not decode as a
  `Status`.
* The mutex-guarded cache is explicit state: a setter maps the cached
  `Status` (read under the lock) to the new cached `Status`.
* The background poll loop and the discovery worker loop are step functions
  over the sequence of events (timer ticks with their fetch outcomes,
  cancellation-channel completions, service announcements) they process.
-/

/-- The error enumeration of `keylight.rs` (payloads elided). -/
inductive ElgatoError where
  | ParseError
  | NoLight
  | DiscoverError
  | RequestError
  | IPError
  | CancelError
deriving DecidableEq

/-- One light: `on : u8`, `brightness : u8`, `temperature : u16`. -/
structure Light where
  «on» : Nat
  brightness : Nat
  temperature : Nat
deriving DecidableEq

/-- Full device state: `number_of_lights : i64`, `lights : Vec<Light>`. -/
structure Status where
  number_of_lights : Int
  lights : List Light
deriving DecidableEq

/-- An HTTP response as the transport hands it back: whether its status code
is a success code, and the decoded `Status` when the body decodes (`none`
when a decode attempt would fail). -/
structure HttpResponse where
  success : Bool
  body : Option Status
deriving DecidableEq

/-- Outcome of one `send()`: transport failure, or a delivered response
(whatever its status code). -/
inductive SendResult where
  | err : SendResult
  | ok : HttpResponse → SendResult
deriving DecidableEq

/-- What one setter call produces: the body of the `PUT` it issued, the value
returned to the caller, and the cache contents after the call. -/
structure SetterOutcome (α : Type) where
  putBody : Status
  result : Except ElgatoError α
  cache : Status

/-- `get_status`: `GET` then decode; `?` propagates transport failure from
`send()` and decode failure from `json()` as `RequestError`.  The response's
status code is never consulted. -/
def get_status (r : SendResult) : Except ElgatoError Status :=
  match r with
  | .err => .error .RequestError
  | .ok resp =>
    match resp.body with
    | some s => .ok s
    | none => .error .RequestError

/-- `get`: polled mode returns a clone of the cache (no network call),
unpolled mode fetches.  The second component counts network calls made. -/
def get (poll : Bool) (cache : Status) (r : SendResult) :
    Except ElgatoError Status × Nat :=
  if poll then (.ok cache, 0) else (get_status r, 1)

/-- `set_brightness`: clamp the `u8` argument to at most 100, clone the
cached status, set every light's brightness, `PUT` the clone, and commit it
to the cache only when `send()` succeeded. -/
def set_brightness (cache : Status) (brightness : Nat) (r : SendResult) :
    SetterOutcome Unit :=
  let b := if brightness > 100 then 100 else brightness
  let current : Status :=
    { cache with lights := cache.lights.map fun l => { l with brightness := b } }
  match r with
  | .err => ⟨current, .error .RequestError, cache⟩
  | .ok _ => ⟨current, .ok (), current⟩

/-- Rust `f64 as u8` on a non-NaN value: truncate toward zero, saturating to
`[0, 255]`. -/
def f64ToU8 (q : ℚ) : Nat := min (⌊q⌋).toNat 255

/-- The per-light value of `set_relative_brightness`:
`(brightness as f64 + delta * 100.0).clamp(0.0, 100.0)`. -/
def relClamp (delta : ℚ) (c : Nat) : ℚ := min (max ((c : ℚ) + delta * 100) 0) 100

/-- `set_relative_brightness`: cap the delta at `1.0` (upper bound only),
clamp each light's shifted brightness to `[0,100]`, store the truncated
(`as u8`) value into the clone, `PUT` it, commit on success, and return the
mean over the un-truncated clamped values. -/
def set_relative_brightness (cache : Status) (brightness : ℚ) (r : SendResult) :
    SetterOutcome ℚ :=
  let b := if brightness > 1 then 1 else brightness
  let nvs := cache.lights.map fun l => relClamp b l.brightness
  let current : Status :=
    { cache with lights :=
        cache.lights.map fun l => { l with brightness := f64ToU8 (relClamp b l.brightness) } }
  let avg := nvs.sum / (nvs.length : ℚ)
  match r with
  | .err => ⟨current, .error .RequestError, cache⟩
  | .ok _ => ⟨current, .ok avg, current⟩

/-- The temperature encoding of `set_temperature`:
`(((t as f32).clamp(2900.0, 7000.0) - 2900.0) / (4100.0 / (344.0 - 143.0)) + 143.0).clamp(143.0, 344.0) as u16`.
The final `as u16` truncates toward zero (the value lies in `[143, 344]`). -/
def tempCode (temperature : Nat) : Nat :=
  (⌊min (max ((min (max ((temperature : ℚ)) 2900) 7000 - 2900)
      / (4100 / (344 - 143)) + 143) 143) 344⌋).toNat

/-- `set_temperature`: encode the Kelvin argument, clone, set every light's
temperature, `PUT`, commit on success. -/
def set_temperature (cache : Status) (temperature : Nat) (r : SendResult) :
    SetterOutcome Unit :=
  let t := tempCode temperature
  let current : Status :=
    { cache with lights := cache.lights.map fun l => { l with temperature := t } }
  match r with
  | .err => ⟨current, .error .RequestError, cache⟩
  | .ok _ => ⟨current, .ok (), current⟩

/-- `set_power`: set every light's `on` field to `power as u8`, `PUT` the
clone, commit on success. -/
def set_power (cache : Status) (power : Bool) (r : SendResult) :
    SetterOutcome Unit :=
  let current : Status :=
    { cache with lights := cache.lights.map fun l => { l with «on» := if power then 1 else 0 } }
  match r with
  | .err => ⟨current, .error .RequestError, cache⟩
  | .ok _ => ⟨current, .ok (), current⟩

/-- One body of the `tokio::select!` tick arm of `poll_status`: `GET`, and on
a decoded body overwrite the cache; every failure (transport or decode) is
swallowed, leaving the cache untouched. -/
def pollTick (cache : Status) (r : SendResult) : Status :=
  match r with
  | .err => cache
  | .ok resp =>
    match resp.body with
    | some status => status
    | none => cache

/-- One event processed by the `poll_status` loop: a timer tick together with
the fetch outcome of that tick, or completion of `cancel.recv()` (which
happens when the one-shot cancellation value is delivered, or when the
sender half is dropped). -/
inductive PollEvent where
  | tick : SendResult → PollEvent
  | cancel : PollEvent
deriving DecidableEq

/-- Run of the `poll_status` loop over the sequence of events it processes:
returns whether the loop terminated (`return`) and the final cache. -/
def pollRun (cache : Status) : List PollEvent → Bool × Status
  | [] => (false, cache)
  | .cancel :: _ => (true, cache)
  | .tick r :: es => pollRun (pollTick cache r) es

/-- A service announcement as surfaced by the mDNS browser callback. -/
structure Service where
  name : String
  address : String
  port : Nat
deriving DecidableEq

/-- One event processed by the discovery worker of `new_from_name`: a service
announcement delivered by the browser's `poll`, or availability of the
cancellation message on `crx` (sent by the caller after it received a match,
or the channel disconnecting). -/
inductive WorkerEvent where
  | announce : Service → WorkerEvent
  | cancelReady : WorkerEvent
deriving DecidableEq

/-- Run of the discovery worker over the events it processes.  The callback
forwards an announcement over `tx` exactly when its name equals the
requested name; the loop returns when `crx.try_recv()` yields a value.
Returns whether the worker terminated and the FIFO contents forwarded to
the caller's channel, in order. -/
def workerRun (target : String) (sent : List Service) :
    List WorkerEvent → Bool × List Service
  | [] => (false, sent)
  | .cancelReady :: _ => (true, sent)
  | .announce s :: es =>
    workerRun target (if s.name == target then sent ++ [s] else sent) es

/-- The service `new_from_name` resolves: `rx.recv().await` takes the first
value forwarded over the channel, and yields `DiscoverError` when the
channel closes with nothing forwarded. -/
def new_from_name (target : String) (es : List WorkerEvent) :
    Except ElgatoError Service :=
  match ((workerRun target [] es).2).head? with
  | some s => .ok s
  | none => .error .DiscoverError

/-- Arithmetic mean of the brightness values stored in a status (used to
compare the committed cache against the feedback value of
`set_relative_brightness`). -/
def meanBrightness (s : Status) : ℚ :=
  ((s.lights.map fun l => (l.brightness : ℚ)).sum) / (s.lights.length : ℚ)

/-- The temperature mapping exactly as the spec words it:
`round(clamp(143 + (clamp(kelvin,2900,7000) - 2900) / (4100/(344-143)), 143, 344))`,
written for comparison with `tempCode`, which is read off the source. -/
def tempCodeSpec (temperature : Nat) : ℤ :=
  round (min (max ((min (max ((temperature : ℚ)) 2900) 7000 - 2900)
      / (4100 / (344 - 143)) + 143) 143) 344)

/-- The service payloads of the announcement events, in order. -/
def eventServices : List WorkerEvent → List Service
  | [] => []
  | .announce s :: es => s :: eventServices es
  | .cancelReady :: es => eventServices es

/-- The announcements the worker's callback forwards over the channel (exact
name matches), in order. -/
def announced (target : String) : List WorkerEvent → List Service
  | [] => []
  | .announce s :: es =>
    if s.name == target then s :: announced target es else announced target es
  | .cancelReady :: es => announced target es

/-- As long as no cancellation is available, the worker keeps browsing and
has forwarded exactly the name-matching announcements, in order. -/
theorem workerRun_no_cancel (target : String) (sent : List Service)
    (es : List WorkerEvent) (h : ∀ e ∈ es, e ≠ WorkerEvent.cancelReady) :
    workerRun target sent es = (false, sent ++ announced target es) := by
  induction es generalizing sent with
  | nil => simp [workerRun, announced]
  | cons e es ih =>
    cases e with
    | announce s =>
      have h' : ∀ e ∈ es, e ≠ WorkerEvent.cancelReady :=
        fun e he => h e (List.mem_cons_of_mem _ he)
      by_cases hs : s.name == target
      · simp [workerRun, announced, hs, ih _ h']
      · simp [workerRun, announced, hs, ih _ h']
    | cancelReady => exact absurd rfl (h _ (List.mem_cons_self _ _))

/-- The first forwarded announcement is the first announcement whose name
matches exactly. -/
theorem announced_head (target : String) (es : List WorkerEvent) :
    (announced target es).head?
      = (eventServices es).find? (fun s => s.name == target) := by
  induction es with
  | nil => rfl
  | cons e es ih =>
    cases e with
    | announce s =>
      by_cases hs : s.name == target
      · simp [announced, eventServices, hs, List.find?]
      · simp [announced, eventServices, hs, List.find?, ih]
    | cancelReady => simpa [announced, eventServices] using ih

/-- The poll loop has exited exactly when it processed a completion of the
cancellation receive. -/
theorem pollRun_terminated_iff (cache : Status) (es : List PollEvent) :
    (pollRun cache es).1 = true ↔ PollEvent.cancel ∈ es := by
  induction es generalizing cache with
  | nil => simp [pollRun]
  | cons e es ih =>
    cases e with
    | cancel => simp [pollRun]
    | tick r => simp [pollRun, ih]

/-- Capping the relative-brightness delta at `1.0` never changes the
per-light clamped value: for `d > 1` both sides saturate at `100`. -/
theorem relClamp_cap (d : ℚ) (c : Nat) :
    relClamp (if d > 1 then 1 else d) c = relClamp d c := by
  unfold relClamp
  split
  · next h =>
    have hc : (0 : ℚ) ≤ (c : ℚ) := Nat.cast_nonneg c
    have h1 : (100 : ℚ) ≤ (c : ℚ) + 1 * 100 := by linarith
    have h2 : (100 : ℚ) ≤ (c : ℚ) + d * 100 := by linarith
    rw [min_eq_right (le_trans h1 (le_max_left _ _)),
      min_eq_right (le_trans h2 (le_max_left _ _))]
  · rfl

/-- C1: for every setter (`set_power`, `set_brightness`,
`set_relative_brightness`, `set_temperature`), a failed push propagates
`RequestError` and leaves the cached `Status` exactly at its pre-call value,
so a polled `get` immediately afterwards returns the pre-call value; on a
successful push the cache is replaced by the mutated clone (the `PUT` body). -/
theorem setters_transactional (cache : Status) (p : Bool) (b t : Nat) (d : ℚ)
    (resp : HttpResponse) (r : SendResult) :
    ((set_power cache p .err).cache = cache
      ∧ (set_power cache p .err).result = .error .RequestError
      ∧ (set_power cache p (.ok resp)).cache = (set_power cache p (.ok resp)).putBody)
    ∧ ((set_brightness cache b .err).cache = cache
      ∧ (set_brightness cache b .err).result = .error .RequestError
      ∧ (set_brightness cache b (.ok resp)).cache
          = (set_brightness cache b (.ok resp)).putBody)
    ∧ ((set_relative_brightness cache d .err).cache = cache
      ∧ (set_relative_brightness cache d .err).result = .error .RequestError
      ∧ (set_relative_brightness cache d (.ok resp)).cache
          = (set_relative_brightness cache d (.ok resp)).putBody)
    ∧ ((set_temperature cache t .err).cache = cache
      ∧ (set_temperature cache t .err).result = .error .RequestError
      ∧ (set_temperature cache t (.ok resp)).cache
          = (set_temperature cache t (.ok resp)).putBody)
    ∧ (get true ((set_brightness cache b .err).cache) r).1 = .ok cache :=
  ⟨⟨rfl, rfl, rfl⟩, ⟨rfl, rfl, rfl⟩, ⟨rfl, rfl, rfl⟩, ⟨rfl, rfl, rfl⟩, rfl⟩

/-- C5: for every `u8` input `b`, `set_brightness` writes
`clamp(b, 0, 100)` into every light of the snapshot it `PUT`s, and commits
that snapshot on success. -/
theorem set_brightness_clamps (cache : Status) (b : Nat) (hb : b ≤ 255)
    (resp : HttpResponse) :
    (set_brightness cache b (.ok resp)).putBody.lights
        = cache.lights.map (fun l => { l with brightness := min (max b 0) 100 })
      ∧ (set_brightness cache b (.ok resp)).cache
        = (set_brightness cache b (.ok resp)).putBody := by
  refine ⟨?_, rfl⟩
  have hmin : (if b > 100 then 100 else b) = min (max b 0) 100 := by
    rcases le_or_lt b 100 with h | h
    · rw [if_neg (by omega), max_eq_left (Nat.zero_le b), min_eq_left h]
    · rw [if_pos h, max_eq_left (Nat.zero_le b), min_eq_right (le_of_lt h)]
  simp only [set_brightness, hmin]

/-- Witness for C5 at `b = 150` (clamped to 100). -/
theorem set_brightness_clamps_witness :
    (set_brightness ⟨1, [⟨0, 50, 200⟩]⟩ 150 (.ok ⟨true, none⟩)).putBody.lights
        = (⟨1, [⟨0, 50, 200⟩]⟩ : Status).lights.map
            (fun l => { l with brightness := min (max 150 0) 100 })
      ∧ (set_brightness ⟨1, [⟨0, 50, 200⟩]⟩ 150 (.ok ⟨true, none⟩)).cache
        = (set_brightness ⟨1, [⟨0, 50, 200⟩]⟩ 150 (.ok ⟨true, none⟩)).putBody :=
  set_brightness_clamps ⟨1, [⟨0, 50, 200⟩]⟩ 150 (by decide) ⟨true, none⟩

/-- C2 counterexample: the device answers the `PUT` of `set_power true` with
a non-success HTTP status (and an undecodable body); the setter nevertheless
returns `Ok` — not `RequestError` — and commits the mutated clone, so the
cache no longer holds the pre-call value. -/
theorem put_nonsuccess_still_commits :
    (set_power ⟨1, [⟨0, 50, 200⟩]⟩ true (.ok ⟨false, none⟩)).result = .ok ()
      ∧ (set_power ⟨1, [⟨0, 50, 200⟩]⟩ true (.ok ⟨false, none⟩)).result
          ≠ .error ElgatoError.RequestError
      ∧ (set_power ⟨1, [⟨0, 50, 200⟩]⟩ true (.ok ⟨false, none⟩)).cache
        = (set_power ⟨1, [⟨0, 50, 200⟩]⟩ true (.ok ⟨false, none⟩)).putBody
      ∧ (set_power ⟨1, [⟨0, 50, 200⟩]⟩ true (.ok ⟨false, none⟩)).cache
          ≠ ⟨1, [⟨0, 50, 200⟩]⟩ :=
  ⟨rfl, fun h => Except.noConfusion h, rfl, fun h => by simp [set_power] at h⟩

/-- C2 amended: every mutation `PUT`s the full `Status` (same light count,
same `number_of_lights`) and fails with `RequestError` exactly on transport
failure; the HTTP status and body of the `PUT` response are never consulted,
so any delivered response — success or not — yields `Ok` and commits the
clone.  The fetch path fails with `RequestError` on transport failure or
body-decode failure (a non-success status only fails it indirectly, when its
body does not decode as a `Status`). -/
theorem put_error_iff_transport (cache : Status) (p flag : Bool) (b t : Nat)
    (d : ℚ) (resp : HttpResponse) (r : SendResult) (s : Status) :
    ((set_power cache p .err).result = .error .RequestError
      ∧ (set_brightness cache b .err).result = .error .RequestError
      ∧ (set_relative_brightness cache d .err).result = .error .RequestError
      ∧ (set_temperature cache t .err).result = .error .RequestError)
    ∧ ((set_power cache p (.ok resp)).result = .ok ()
      ∧ (set_brightness cache b (.ok resp)).result = .ok ()
      ∧ (set_temperature cache t (.ok resp)).result = .ok ()
      ∧ (set_power cache p (.ok resp)).cache = (set_power cache p (.ok resp)).putBody)
    ∧ ((set_power cache p r).putBody.number_of_lights = cache.number_of_lights
      ∧ (set_power cache p r).putBody.lights.length = cache.lights.length)
    ∧ (get_status .err = .error .RequestError
      ∧ get_status (.ok ⟨flag, none⟩) = .error .RequestError
      ∧ get_status (.ok ⟨flag, some s⟩) = .ok s) := by
  refine ⟨⟨rfl, rfl, rfl, rfl⟩, ⟨rfl, rfl, rfl, rfl⟩, ⟨?_, ?_⟩, rfl, rfl, rfl⟩
  · cases r <;> rfl
  · cases r <;> simp [set_power]

/-- C6: in polled mode `get` returns a copy of the cache, makes no network
call (call count 0) and never fails, whatever the device would have
answered; in unpolled mode every `get` performs one synchronous fetch.
Background refresh outcomes are swallowed: a failed tick (transport or
decode) leaves the cache untouched, a successful one overwrites it. -/
theorem get_polled_uses_cache (cache s : Status) (r : SendResult) (flag : Bool) :
    get true cache r = (.ok cache, 0)
      ∧ get false cache r = (get_status r, 1)
      ∧ pollTick cache .err = cache
      ∧ pollTick cache (.ok ⟨flag, none⟩) = cache
      ∧ pollTick cache (.ok ⟨flag, some s⟩) = s :=
  ⟨rfl, rfl, rfl, rfl, rfl⟩

/-- C3 counterexample: the code truncates the mapped value toward zero
(`as u16`) instead of rounding it.  At `kelvin = 4950` the mapped value is
exactly `243.5`: the code commits `tempCode 4950 = 243`, while the claimed
`round` of the spec formula gives `244`. -/
theorem tempCode_truncates_not_rounds :
    tempCode 4950 = 243 ∧ tempCodeSpec 4950 = 244 ∧ (243 : ℤ) ≠ 244 :=
  ⟨by norm_num [tempCode]; rfl, by norm_num [tempCodeSpec, round_eq], by decide⟩

/-- C3 amended: `set_temperature` commits to each light the spec's linear
mapping truncated toward zero (not rounded):
`trunc(clamp(143 + (clamp(kelvin,2900,7000) - 2900) / (4100/(344-143)), 143, 344))`.
In particular `2900 ↦ 143`, `7000 ↦ 344`, `4950 ↦ 243`; the mapping is
monotone non-decreasing and inputs outside `[2900, 7000]` are clamped to the
endpoint codes. -/
theorem set_temperature_mapping (cache : Status) (resp : HttpResponse)
    (a b t : Nat) (hab : a ≤ b) :
    tempCode 2900 = 143
      ∧ tempCode 7000 = 344
      ∧ tempCode 4950 = 243
      ∧ tempCode a ≤ tempCode b
      ∧ (t ≤ 2900 → tempCode t = 143)
      ∧ (7000 ≤ t → tempCode t = 344)
      ∧ ((tempCode t : ℤ)
          = ⌊min (max ((min (max ((t : ℚ)) 2900) 7000 - 2900)
              / (4100 / (344 - 143)) + 143) 143) 344⌋)
      ∧ (set_temperature cache t (.ok resp)).putBody.lights
          = cache.lights.map (fun l => { l with temperature := tempCode t })
      ∧ (set_temperature cache t (.ok resp)).cache
        = (set_temperature cache t (.ok resp)).putBody := by
  refine ⟨by norm_num [tempCode]; rfl, by norm_num [tempCode]; rfl,
    by norm_num [tempCode]; rfl, ?_, ?_, ?_, ?_, rfl, rfl⟩
  · apply Int.toNat_le_toNat
    apply Int.floor_le_floor
    have hc : ((a : ℚ)) ≤ (b : ℚ) := by exact_mod_cast hab
    have h1 : min (max ((a : ℚ)) 2900) 7000 ≤ min (max ((b : ℚ)) 2900) 7000 :=
      min_le_min (max_le_max hc le_rfl) le_rfl
    have h2 : (min (max ((a : ℚ)) 2900) 7000 - 2900) / (4100 / (344 - 143))
        ≤ (min (max ((b : ℚ)) 2900) 7000 - 2900) / (4100 / (344 - 143)) :=
      (div_le_div_iff_of_pos_right (by norm_num)).mpr (sub_le_sub_right h1 _)
    exact min_le_min (max_le_max (add_le_add_right h2 _) le_rfl) le_rfl
  · intro ht
    have hc : ((t : ℚ)) ≤ 2900 := by exact_mod_cast ht
    unfold tempCode
    rw [max_eq_right hc]
    norm_num
    rfl
  · intro ht
    have hc : (2900 : ℚ) ≤ (t : ℚ) := by
      exact_mod_cast le_trans (by norm_num) ht
    have hc7 : (7000 : ℚ) ≤ (t : ℚ) := by exact_mod_cast ht
    unfold tempCode
    rw [max_eq_left hc, min_eq_right hc7]
    norm_num
    rfl
  · have hnn : (0 : ℤ) ≤ ⌊min (max ((min (max ((t : ℚ)) 2900) 7000 - 2900)
        / (4100 / (344 - 143)) + 143) 143) 344⌋ := by
      apply Int.le_floor.mpr
      refine le_min (le_trans ?_ (le_max_right _ _)) (by norm_num)
      norm_num
    exact Int.toNat_of_nonneg hnn

/-- Witness for C3 (amended) at `a = 3000`, `b = 5000`, `t = 2000` and
`t = 8000`. -/
theorem set_temperature_mapping_witness :
    tempCode 3000 ≤ tempCode 5000 ∧ tempCode 2000 = 143 ∧ tempCode 8000 = 344 :=
  ⟨(set_temperature_mapping ⟨1, []⟩ ⟨true, none⟩ 3000 5000 2000
      (by norm_num)).2.2.2.1,
   (set_temperature_mapping ⟨1, []⟩ ⟨true, none⟩ 3000 5000 2000
      (by norm_num)).2.2.2.2.1 (by norm_num),
   (set_temperature_mapping ⟨1, []⟩ ⟨true, none⟩ 3000 5000 8000
      (by norm_num)).2.2.2.2.2.1 (by norm_num)⟩

/-- C4 counterexample: with one light at brightness 10 and delta `1/8`,
`clamp(c + 100·d, 0, 100) = 22.5`, but the brightness committed to the cache
(and `PUT` body) is the truncated `22`, so the setter does not commit the
claimed value. -/
theorem relative_commit_truncated :
    ((set_relative_brightness ⟨1, [⟨1, 10, 200⟩]⟩ (1/8) (.ok ⟨true, none⟩)).cache.lights.map
        fun l => (l.brightness : ℚ)) = [22]
      ∧ relClamp (1/8) 10 = 45/2
      ∧ ((22 : ℚ)) ≠ 45/2 := by
  refine ⟨?_, by norm_num [relClamp], by norm_num⟩
  norm_num [set_relative_brightness, relClamp, f64ToU8]
  simp

/-- C4 amended: for every delta `d` and every light with brightness `c` in
the snapshot, `set_relative_brightness` commits
`trunc(clamp(c + 100·d, 0, 100))` (truncation toward zero, via the `u8`
cast) to that light, and returns as feedback the arithmetic mean of the
un-truncated clamped values; whenever the snapshot has at least one light,
that feedback lies in `[0, 100]`.  (With no lights the source divides `0.0`
by `0`, yielding a NaN feedback.) -/
theorem set_relative_brightness_spec (cache : Status) (d : ℚ)
    (resp : HttpResponse) :
    (set_relative_brightness cache d (.ok resp)).putBody.lights
        = cache.lights.map
            (fun l => { l with brightness := f64ToU8 (relClamp d l.brightness) })
      ∧ (set_relative_brightness cache d (.ok resp)).result
          = .ok ((cache.lights.map fun l => relClamp d l.brightness).sum
              / ((cache.lights.map fun l => relClamp d l.brightness).length : ℚ))
      ∧ (set_relative_brightness cache d (.ok resp)).cache
        = (set_relative_brightness cache d (.ok resp)).putBody
      ∧ (cache.lights ≠ [] →
          0 ≤ ((cache.lights.map fun l => relClamp d l.brightness).sum
              / ((cache.lights.map fun l => relClamp d l.brightness).length : ℚ))
            ∧ ((cache.lights.map fun l => relClamp d l.brightness).sum
              / ((cache.lights.map fun l => relClamp d l.brightness).length : ℚ)) ≤ 100) := by
  refine ⟨?_, ?_, rfl, ?_⟩
  · simp only [set_relative_brightness, relClamp_cap]
  · simp only [set_relative_brightness, relClamp_cap]
  · intro hne
    have hmem : ∀ q ∈ cache.lights.map (fun l => relClamp d l.brightness),
        0 ≤ q ∧ q ≤ 100 := by
      intro q hq
      rw [List.mem_map] at hq
      obtain ⟨l, _, rfl⟩ := hq
      unfold relClamp
      exact ⟨le_min (le_max_right _ _) (by norm_num), min_le_right _ _⟩
    have hlen : (0 : ℚ)
        < ((cache.lights.map (fun l => relClamp d l.brightness)).length : ℚ) := by
      rw [List.length_map]
      exact_mod_cast List.length_pos.mpr hne
    constructor
    · exact div_nonneg (List.sum_nonneg fun q hq => (hmem q hq).1) (le_of_lt hlen)
    · rw [div_le_iff₀ hlen]
      calc (cache.lights.map (fun l => relClamp d l.brightness)).sum
          ≤ (cache.lights.map (fun l => relClamp d l.brightness)).length • (100 : ℚ) :=
            List.sum_le_card_nsmul _ 100 (fun q hq => (hmem q hq).2)
        _ = 100 * ((cache.lights.map (fun l => relClamp d l.brightness)).length : ℚ) := by
            rw [nsmul_eq_mul]; ring

/-- Witness for C4 (amended): one light at brightness 10, delta `1/8`. -/
theorem set_relative_brightness_spec_witness :
    0 ≤ (((⟨1, [⟨1, 10, 200⟩]⟩ : Status).lights.map fun l => relClamp (1/8) l.brightness).sum
          / (((⟨1, [⟨1, 10, 200⟩]⟩ : Status).lights.map fun l => relClamp (1/8) l.brightness).length : ℚ))
      ∧ (((⟨1, [⟨1, 10, 200⟩]⟩ : Status).lights.map fun l => relClamp (1/8) l.brightness).sum
          / (((⟨1, [⟨1, 10, 200⟩]⟩ : Status).lights.map fun l => relClamp (1/8) l.brightness).length : ℚ)) ≤ 100 :=
  (set_relative_brightness_spec ⟨1, [⟨1, 10, 200⟩]⟩ (1/8) ⟨true, none⟩).2.2.2
    (List.cons_ne_nil _ _)

/-- C10: the brightness committed per light is the `u8`-truncated clamped
float, while the returned mean is over the un-truncated clamped values;
concretely, from lights at brightness 10 and 11 with delta `1/8` the call
returns `23`, while the mean of the committed brightness values (22 and 23)
is `45/2` — they differ. -/
theorem relative_mean_over_untruncated (cache : Status) (d : ℚ)
    (resp : HttpResponse) :
    ((set_relative_brightness cache d (.ok resp)).cache.lights
        = cache.lights.map
            (fun l => { l with brightness := f64ToU8 (relClamp d l.brightness) })
      ∧ (set_relative_brightness cache d (.ok resp)).result
          = .ok ((cache.lights.map fun l => relClamp d l.brightness).sum
              / ((cache.lights.map fun l => relClamp d l.brightness).length : ℚ)))
    ∧ (set_relative_brightness ⟨2, [⟨1, 10, 200⟩, ⟨1, 11, 200⟩]⟩ (1/8)
          (.ok ⟨true, none⟩)).result = .ok 23
    ∧ meanBrightness (set_relative_brightness ⟨2, [⟨1, 10, 200⟩, ⟨1, 11, 200⟩]⟩ (1/8)
          (.ok ⟨true, none⟩)).cache = 45/2
    ∧ ((45 : ℚ)/2) ≠ 23 := by
  refine ⟨⟨?_, ?_⟩, ?_, ?_, by norm_num⟩
  · simp only [set_relative_brightness, relClamp_cap]
  · simp only [set_relative_brightness, relClamp_cap]
  · simp only [set_relative_brightness]
    norm_num [relClamp]
  · simp only [set_relative_brightness, meanBrightness]
    norm_num [relClamp, f64ToU8]
    simp
    norm_num

/-- C9: from cached state `{numberOfLights: 1, lights: [{on: 0, brightness:
50, temperature: 200}]}`, `set_power true` `PUT`s exactly
`{numberOfLights: 1, lights: [{on: 1, brightness: 50, temperature: 200}]}`
(only `on` changes), and after a successful response a polled `get` returns
that status, in particular `on = 1`. -/
theorem set_power_scenario :
    (set_power ⟨1, [⟨0, 50, 200⟩]⟩ true (.ok ⟨true, none⟩)).putBody
        = ⟨1, [⟨1, 50, 200⟩]⟩
      ∧ (get true (set_power ⟨1, [⟨0, 50, 200⟩]⟩ true (.ok ⟨true, none⟩)).cache .err).1
        = .ok ⟨1, [⟨1, 50, 200⟩]⟩
      ∧ ((set_power ⟨1, [⟨0, 50, 200⟩]⟩ true (.ok ⟨true, none⟩)).cache.lights.map
          fun l => l.on) = [1] :=
  ⟨rfl, rfl, rfl⟩

/-- C7: discovery resolves to the first announced service whose name exactly
equals the requested one; an announcement with a non-matching name is
ignored (it changes neither the forwarded results nor the loop's
continuation) and never terminates the browse; a single available
cancellation stops the worker immediately. -/
theorem discovery_first_match (target : String) (s : Service)
    (sent : List Service) (es es2 : List WorkerEvent)
    (hnc : ∀ e ∈ es, e ≠ WorkerEvent.cancelReady) (hs : s.name ≠ target) :
    (new_from_name target es
        = match (eventServices es).find? (fun x => x.name == target) with
          | some m => Except.ok m
          | none => Except.error ElgatoError.DiscoverError)
      ∧ (workerRun target [] es).1 = false
      ∧ workerRun target sent (.announce s :: es2) = workerRun target sent es2
      ∧ workerRun target sent (.cancelReady :: es2) = (true, sent) := by
  refine ⟨?_, ?_, ?_, rfl⟩
  · unfold new_from_name
    rw [workerRun_no_cancel target [] es hnc]
    simp only [List.nil_append]
    rw [announced_head]
  · rw [workerRun_no_cancel target [] es hnc]
  · have hs' : (s.name == target) = false := by simp [hs]
    simp [workerRun, hs']

/-- Witness for C7: a non-matching announcement followed by the matching
one; discovery resolves to the matching one. -/
theorem discovery_first_match_witness :
    new_from_name "Key Light Left"
        [WorkerEvent.announce ⟨"Other", "192.168.0.9", 9123⟩,
          WorkerEvent.announce ⟨"Key Light Left", "192.168.0.7", 9123⟩]
      = (match (eventServices
            [WorkerEvent.announce ⟨"Other", "192.168.0.9", 9123⟩,
              WorkerEvent.announce ⟨"Key Light Left", "192.168.0.7", 9123⟩]).find?
            (fun x => x.name == "Key Light Left") with
          | some m => Except.ok m
          | none => Except.error ElgatoError.DiscoverError) :=
  (discovery_first_match "Key Light Left" ⟨"Other", "192.168.0.9", 9123⟩ []
      [WorkerEvent.announce ⟨"Other", "192.168.0.9", 9123⟩,
        WorkerEvent.announce ⟨"Key Light Left", "192.168.0.7", 9123⟩] []
      (by decide) (by decide)).1

/-- C8: the poll loop terminates exactly when the cancellation receive
completes: no run made of timer ticks alone (whatever each tick's fetch
outcome) terminates, a single available cancellation terminates the loop at
once, and appending one cancellation to any all-tick run terminates it. -/
theorem poll_cancel_semantics (cache : Status) (es : List PollEvent)
    (rs : List SendResult) :
    ((pollRun cache es).1 = true ↔ PollEvent.cancel ∈ es)
      ∧ (pollRun cache (rs.map .tick)).1 = false
      ∧ pollRun cache (.cancel :: es) = (true, cache)
      ∧ (pollRun cache (rs.map .tick ++ [.cancel])).1 = true := by
  refine ⟨pollRun_terminated_iff cache es, ?_, rfl, ?_⟩
  · cases hb : (pollRun cache (rs.map .tick)).1 with
    | false => rfl
    | true =>
      exfalso
      have hmem := (pollRun_terminated_iff cache (rs.map .tick)).mp hb
      simp at hmem
  · exact (pollRun_terminated_iff cache (rs.map .tick ++ [.cancel])).mpr (by simp)
